import Mathlib

/-!
Verification of the position-update and geocode-throttling pipeline of the
Realtime-tracker repository (src/app.js, with src/unnamed/part_000 as an
earlier variant of the same application).

Modelling conventions:
* JavaScript numbers are modelled by `JSVal`: an exact rational for finite
  values, plus the special values `NaN`, `+Infinity`, `-Infinity`, and a
  non-number value (`undef`, standing for `null`/`undefined`).  Finite
  arithmetic is exact rational arithmetic; the special values follow the
  IEEE rules JavaScript uses for the operations that occur in the source.
* The JavaScript remainder operator `%` truncates towards zero, which for
  the non-negative dividends arising in `smoothHeading` coincides with
  floor-based remainder; `jsModQ` implements the truncating form.
* `calculateDistance` (the haversine distance, built from `Math.sin`,
  `Math.cos`, `Math.atan2`, `Math.sqrt`) is transcendental; the pipeline is
  parameterised by an arbitrary distance function `dist` standing for it.
  No claim depends on the numeric value of a haversine distance.
* Times (`Date.now()`) are integers in milliseconds.
-/

/-- A JavaScript value as it can reach the heading/accuracy logic: a finite
number (exact rational), `NaN`, `±Infinity`, or a non-number value such as
`null`/`undefined`. -/
inductive JSVal where
  | num (q : ℚ)
  | nan
  | posInf
  | negInf
  | undef
  deriving DecidableEq, Repr

namespace JSVal

/-- The test `typeof v === 'number'` — true for finite numbers, `NaN` and infinities. -/
def typeofNumber : JSVal → Bool
  | undef => false
  | _ => true

/-- The test `isNaN(v)` — `NaN` is the only number that is NaN; a non-number coerces
to `NaN` first, so `isNaN(undefined)` is also true. -/
def jsIsNaN : JSVal → Bool
  | nan => true
  | undef => true
  | _ => false

/-- The guard `typeof v !== 'number' || isNaN(v)` used in `smoothHeading`. -/
def isNonNumberOrNaN (v : JSVal) : Bool := !typeofNumber v || jsIsNaN v

/-- JavaScript addition on the values reachable here. -/
def jsAdd : JSVal → JSVal → JSVal
  | num a, num b => num (a + b)
  | num _, posInf => posInf
  | posInf, num _ => posInf
  | num _, negInf => negInf
  | negInf, num _ => negInf
  | posInf, posInf => posInf
  | negInf, negInf => negInf
  | _, _ => nan

/-- JavaScript subtraction on the values reachable here. -/
def jsSub : JSVal → JSVal → JSVal
  | num a, num b => num (a - b)
  | num _, posInf => negInf
  | posInf, num _ => posInf
  | num _, negInf => posInf
  | negInf, num _ => negInf
  | posInf, negInf => posInf
  | negInf, posInf => negInf
  | _, _ => nan

/-- JavaScript multiplication on the values reachable here. -/
def jsMul : JSVal → JSVal → JSVal
  | num a, num b => num (a * b)
  | num a, posInf => if 0 < a then posInf else if a < 0 then negInf else nan
  | posInf, num a => if 0 < a then posInf else if a < 0 then negInf else nan
  | num a, negInf => if 0 < a then negInf else if a < 0 then posInf else nan
  | negInf, num a => if 0 < a then negInf else if a < 0 then posInf else nan
  | posInf, posInf => posInf
  | negInf, negInf => posInf
  | posInf, negInf => negInf
  | negInf, posInf => negInf
  | _, _ => nan

end JSVal

/-- Truncation towards zero of a rational, as a rational (the integral part
used by the JavaScript `%` operator). -/
def ratTrunc (q : ℚ) : ℚ := if 0 ≤ q then (⌊q⌋ : ℚ) else (⌈q⌉ : ℚ)


/-- The JavaScript remainder `a % b` on finite numbers with `b ≠ 0`:
`a - b * trunc(a / b)`; the result takes the sign of the dividend. -/
def jsModQ (a b : ℚ) : ℚ := a - b * ratTrunc (a / b)

namespace JSVal

/-- The JavaScript `%` operator on the values reachable here:
`x % 0` and `Infinity % y` are `NaN`; a finite `a % ±Infinity` is `a`. -/
def jsModOp : JSVal → JSVal → JSVal
  | num a, num b => if b = 0 then nan else num (jsModQ a b)
  | num a, posInf => num a
  | num a, negInf => num a
  | _, _ => nan

end JSVal

/-- Constant `HEADING_SMOOTHING_ALPHA = 0.18` from src/app.js line 29. -/
def HEADING_SMOOTHING_ALPHA : ℚ := 9 / 50

/-- Function `smoothHeading(prev, next)` from src/app.js lines 56–62, with JavaScript
number semantics made explicit:
```js
function smoothHeading(prev, next) {
  if (typeof next !== 'number' || isNaN(next)) return prev;
  if (typeof prev !== 'number' || isNaN(prev)) return next;
  let diff = ((next - prev + 540) % 360) - 180;
  return (prev + HEADING_SMOOTHING_ALPHA * diff + 360) % 360;
}
``` -/
def smoothHeading (prev next : JSVal) : JSVal :=
  if JSVal.isNonNumberOrNaN next then prev
  else if JSVal.isNonNumberOrNaN prev then next
  else
    let diff := JSVal.jsSub (JSVal.jsModOp (JSVal.jsAdd (JSVal.jsSub next prev) (.num 540)) (.num 360)) (.num 180)
    JSVal.jsModOp (JSVal.jsAdd (JSVal.jsAdd prev (JSVal.jsMul (.num HEADING_SMOOTHING_ALPHA) diff)) (.num 360)) (.num 360)

/-- The `diff` computed by `smoothHeading` on two finite headings:
`((next - prev + 540) % 360) - 180`. -/
def smoothDiffQ (prev next : ℚ) : ℚ := jsModQ (next - prev + 540) 360 - 180

/-- The result of `smoothHeading` on two finite headings:
`(prev + ALPHA * diff + 360) % 360`. -/
def smoothNumQ (prev next : ℚ) : ℚ :=
  jsModQ (prev + HEADING_SMOOTHING_ALPHA * smoothDiffQ prev next + 360) 360


/-- A `(lat, lon)` coordinate pair. -/
abbrev GeoPoint := ℚ × ℚ

/-- Constant `MIN_GEOCODE_ACCURACY = 60` meters, src/app.js line 30. -/
def MIN_GEOCODE_ACCURACY : ℚ := 60

/-- Constant `GEOCODE_DISTANCE_THRESHOLD = 20` meters, src/app.js line 14. -/
def GEOCODE_DISTANCE_THRESHOLD : ℚ := 20

/-- Constant `GEOCODE_TIME_THROTTLE = 1100` ms, src/app.js line 15. -/
def GEOCODE_TIME_THROTTLE : ℤ := 1100

/-- The structured address record produced by `getAddress`
(src/app.js lines 367–392). -/
structure Address where
  display_name : String
  house_number : String
  road : String
  neighbourhood : String
  suburb : String
  city : String
  postcode : String
  deriving DecidableEq, Repr

/-- Popup content shown on the marker: either the quick-coordinates display
(`showQuickCoordinates`, src/app.js lines 353–364) or the full address popup
(`createPopupContent`, src/app.js lines 395–437). -/
inductive Popup where
  | quickCoords (lat lon : ℚ)
  | addressPopup (lat lon : ℚ) (accuracy : ℚ) (addr : Address)
  deriving DecidableEq, Repr

/-- The status message written by `updatePosition` on an imprecise fix
(src/app.js line 210): the only status write inside the pipeline. -/
inductive StatusView where
  | waitingForAccurateFix (current : ℚ)
  deriving DecidableEq, Repr

/-- An incoming geolocation sample (`position.coords`): `accuracy` is
`none` when the platform omits it, and the raw heading is a JavaScript
value (a number, `NaN`, or `null`). -/
structure Sample where
  lat : ℚ
  lon : ℚ
  accuracy : Option ℚ
  heading : JSVal
  deriving DecidableEq, Repr

/-- Expression `position.coords.accuracy || 20` (src/app.js line 204): JavaScript `||`
takes the right operand when the left is falsy, and the falsy accuracies are
a missing value and `0`. -/
def effAccuracy (reported : Option ℚ) : ℚ :=
  match reported with
  | none => 20
  | some a => if a = 0 then 20 else a

/-- The validator gate of `updatePosition` (src/app.js line 208): the sample
is deferred exactly when the effective accuracy exceeds
`MIN_GEOCODE_ACCURACY`. -/
def validatorDefers (reported : Option ℚ) : Bool :=
  effAccuracy reported > MIN_GEOCODE_ACCURACY

/-- The mutable application state touched by the pipeline (the fields of
`state` in src/app.js lines 2–16, together with the observable view and
storage effects: marker position, accuracy circle, status message, popup,
the persisted path blob, and the list of issued geocode requests). -/
structure TrackState where
  pathCoords : List GeoPoint
  currentHeading : JSVal
  lastGeocodeTime : ℤ
  lastGeocodePos : Option GeoPoint
  markerPos : Option GeoPoint
  accuracyCircle : Option (GeoPoint × ℚ)
  statusMsg : Option StatusView
  popup : Option Popup
  storedPath : List GeoPoint
  geocodeRequests : List GeoPoint
  deriving DecidableEq, Repr

/-- The session-start state (src/app.js lines 2–16: empty path, no marker,
`lastGeocodeTime: 0`, `lastGeocodePos: null`, heading `null`). -/
def initState : TrackState where
  pathCoords := []
  currentHeading := .undef
  lastGeocodeTime := 0
  lastGeocodePos := none
  markerPos := none
  accuracyCircle := none
  statusMsg := none
  popup := none
  storedPath := []
  geocodeRequests := []

/-- The distance-eligibility part of the geocode gate (src/app.js
lines 319–328): eligible when no prior fix exists or the distance from the
last fix is at least `GEOCODE_DISTANCE_THRESHOLD`.  `dist` stands for the
transcendental `calculateDistance` (haversine). -/
def distanceEligible (dist : GeoPoint → GeoPoint → ℚ)
    (lastPos : Option GeoPoint) (pos : GeoPoint) : Bool :=
  match lastPos with
  | none => true
  | some p => dist p pos ≥ GEOCODE_DISTANCE_THRESHOLD

/-- The full geocode gate of `updateAddress` (src/app.js line 330): attempt
exactly when the accuracy guard passes, the sample is distance-eligible and
the throttle time has elapsed. -/
def shouldAttemptGeocode (dist : GeoPoint → GeoPoint → ℚ) (now : ℤ)
    (pos : GeoPoint) (accuracy : ℚ) (st : TrackState) : Bool :=
  if accuracy > MIN_GEOCODE_ACCURACY then false
  else distanceEligible dist st.lastGeocodePos pos
    && (now - st.lastGeocodeTime > GEOCODE_TIME_THROTTLE)

/-- Function `updateAddress(lat, lon, accuracy)` from src/app.js lines 308–350.  The
asynchronous `getAddress` lookup is passed in as its outcome `lookup`
(`.error` models a network failure or non-success response, which the
source turns into a thrown exception caught by the `catch` block). -/
def updateAddress (dist : GeoPoint → GeoPoint → ℚ) (now : ℤ)
    (lat lon accuracy : ℚ) (lookup : Except Unit Address)
    (st : TrackState) : TrackState :=
  if accuracy > MIN_GEOCODE_ACCURACY then
    { st with popup := some (.quickCoords lat lon) }
  else if distanceEligible dist st.lastGeocodePos (lat, lon)
      && (now - st.lastGeocodeTime > GEOCODE_TIME_THROTTLE) then
    -- record the attempt before the async lookup resolves
    let st1 := { st with lastGeocodeTime := now,
                         lastGeocodePos := some (lat, lon),
                         geocodeRequests := st.geocodeRequests ++ [(lat, lon)] }
    match lookup with
    | .ok addr => { st1 with popup := some (.addressPopup lat lon accuracy addr) }
    | .error _ => { st1 with popup := some (.quickCoords lat lon) }
  else
    { st with popup := some (.quickCoords lat lon) }

/-- Function `updatePosition(position)` from src/app.js lines 201–252: validator
gate, heading smoothing, path append with write-through persistence, marker
and accuracy-circle updates, then `updateAddress`. -/
def updatePosition (dist : GeoPoint → GeoPoint → ℚ) (now : ℤ) (s : Sample)
    (lookup : Except Unit Address) (st : TrackState) : TrackState :=
  let lat := s.lat
  let lon := s.lon
  let accuracy := effAccuracy s.accuracy
  if accuracy > MIN_GEOCODE_ACCURACY then
    { st with statusMsg := some (.waitingForAccurateFix accuracy),
              accuracyCircle := some ((lat, lon), accuracy) }
  else
    let st1 := if JSVal.typeofNumber s.heading && !JSVal.jsIsNaN s.heading then
                 { st with currentHeading := smoothHeading st.currentHeading s.heading }
               else st
    let st2 := { st1 with pathCoords := st1.pathCoords ++ [(lat, lon)],
                          storedPath := st1.pathCoords ++ [(lat, lon)] }
    let st3 := { st2 with markerPos := some (lat, lon),
                          accuracyCircle := some ((lat, lon), accuracy) }
    updateAddress dist now lat lon accuracy lookup st3

/-- One event of the location stream: its arrival time, the sample, and the
outcome the reverse-geocode lookup would have for it. -/
structure Tick where
  now : ℤ
  sample : Sample
  lookup : Except Unit Address
  deriving Repr

/-- Processing a whole stream of location events through `updatePosition`. -/
def processTicks (dist : GeoPoint → GeoPoint → ℚ) (ticks : List Tick)
    (st : TrackState) : TrackState :=
  ticks.foldl (fun acc t => updatePosition dist t.now t.sample t.lookup acc) st

/-! ## Path persistence (src/app.js lines 93–105 and 457–463) -/

/-- Serialisation of one `[lat, lon]` pair inside the JSON blob. -/
def encGeoPoint (p : GeoPoint) : String :=
  "[" ++ toString p.1 ++ "," ++ toString p.2 ++ "]"

/-- The call `JSON.stringify(pathCoords)` as used by `savePathToStorage`
(src/app.js line 459): a deterministic serialisation of the path, so two
path values serialise to byte-identical blobs exactly when they are equal. -/
def savePathBlob (path : List GeoPoint) : String :=
  "[" ++ String.intercalate "," (path.map encGeoPoint) ++ "]"

/-- Function `loadSavedPath()` from src/app.js lines 93–105, applied to the parsed
content of the stored blob (`JSON.parse` of a blob written by
`JSON.stringify` recovers the array it serialised, so the parsed value is
passed directly): `state.pathCoords = arr` runs only when the parse
produced a non-empty array, otherwise the in-memory path is kept. -/
def loadSavedPath (stored : Option (List GeoPoint)) (cur : List GeoPoint) :
    List GeoPoint :=
  match stored with
  | some arr => if arr.length ≠ 0 then arr else cur
  | none => cur

/-! ## Theorems about the heading smoother arithmetic -/

/-- Lemma: `ratTrunc` agrees with the floor on non-negative inputs. -/
theorem ratTrunc_of_nonneg (q : ℚ) (h : 0 ≤ q) : ratTrunc q = (⌊q⌋ : ℚ) := by
  rw [ratTrunc, if_pos h]

/-- On two finite numbers, `smoothHeading` computes exactly the rational
formula `smoothNumQ`. -/
theorem smoothHeading_num (p n : ℚ) :
    smoothHeading (.num p) (.num n) = .num (smoothNumQ p n) := by
  simp [smoothHeading, JSVal.isNonNumberOrNaN, JSVal.typeofNumber, JSVal.jsIsNaN,
    JSVal.jsSub, JSVal.jsAdd, JSVal.jsMul, JSVal.jsModOp, smoothNumQ, smoothDiffQ]

/-- Evaluation helper: `jsModQ a b` for a non-negative dividend, given the
value of the floor of the quotient. -/
theorem jsModQ_eq_of_floor (a b : ℚ) (z : ℤ) (ha : 0 ≤ a) (hb : 0 ≤ b)
    (hz : ⌊a / b⌋ = z) : jsModQ a b = a - b * z := by
  rw [jsModQ, ratTrunc_of_nonneg _ (div_nonneg ha hb), hz]

/-- For a non-negative dividend and positive divisor, the JavaScript
remainder lies in `[0, b)`. -/
theorem jsModQ_bounds (a b : ℚ) (ha : 0 ≤ a) (hb : 0 < b) :
    0 ≤ jsModQ a b ∧ jsModQ a b < b := by
  rw [jsModQ, ratTrunc_of_nonneg _ (div_nonneg ha hb.le)]
  have hfl : (⌊a / b⌋ : ℚ) ≤ a / b := Int.floor_le _
  have hfu : a / b < ⌊a / b⌋ + 1 := Int.lt_floor_add_one _
  have h1 : (⌊a / b⌋ : ℚ) * b ≤ a / b * b := mul_le_mul_of_nonneg_right hfl hb.le
  have h2 : a / b * b < ((⌊a / b⌋ : ℚ) + 1) * b := by
    exact mul_lt_mul_of_pos_right hfu hb
  rw [div_mul_cancel₀ _ (ne_of_gt hb)] at h1 h2
  constructor <;> nlinarith

/-- For a non-negative dividend, the JavaScript remainder differs from the
dividend by an integer multiple of the divisor. -/
theorem jsModQ_sub_int (a b : ℚ) (ha : 0 ≤ a) (hb : 0 < b) :
    ∃ k : ℤ, jsModQ a b = a - b * k :=
  ⟨⌊a / b⌋, by rw [jsModQ, ratTrunc_of_nonneg _ (div_nonneg ha hb.le)]⟩

/-- A rational that is an integer multiple of 360 and lies strictly between
`-360` and `360` is zero. -/
theorem eq_zero_of_int_multiple (x : ℚ) (M : ℤ) (hx : x = 360 * M)
    (h1 : -360 < x) (h2 : x < 360) : x = 0 := by
  have hM1 : (-1 : ℚ) < (M : ℚ) := by rw [hx] at h1; linarith
  have hM2 : (M : ℚ) < 1 := by rw [hx] at h2; linarith
  have hM1i : (-1 : ℤ) < M := by exact_mod_cast hM1
  have hM2i : M < 1 := by exact_mod_cast hM2
  have : M = 0 := by omega
  rw [hx, this]; norm_num

/-- Range of the smoothed-heading `diff`: for headings with
`prev < 360` and `0 ≤ next` (in particular both in `[0,360)`), the computed
difference lies in `[-180, 180)`. -/
theorem smoothDiffQ_range (prev next : ℚ) (hp : prev < 360) (hn : 0 ≤ next) :
    -180 ≤ smoothDiffQ prev next ∧ smoothDiffQ prev next < 180 := by
  have ha : (0 : ℚ) ≤ next - prev + 540 := by linarith
  have h := jsModQ_bounds (next - prev + 540) 360 ha (by norm_num)
  rw [smoothDiffQ]
  constructor <;> linarith [h.1, h.2]

/-- The smoothed-heading `diff` is congruent to `next - prev` modulo 360. -/
theorem smoothDiffQ_congruence (prev next : ℚ) (hp : prev < 360) (hn : 0 ≤ next) :
    ∃ k : ℤ, smoothDiffQ prev next = next - prev - 360 * k := by
  have ha : (0 : ℚ) ≤ next - prev + 540 := by linarith
  obtain ⟨k, hk⟩ := jsModQ_sub_int (next - prev + 540) 360 ha (by norm_num)
  exact ⟨k - 1, by rw [smoothDiffQ, hk]; push_cast; ring⟩

/-- The smoothed heading stays in `[0, 360)` and the angular difference to
the observed heading contracts by the exact factor `1 - ALPHA = 41/50` on
each application. -/
theorem smoothNumQ_contraction (h1 h2 : ℚ) (h1a : 0 ≤ h1) (h1b : h1 < 360)
    (h2a : 0 ≤ h2) (h2b : h2 < 360) :
    (0 ≤ smoothNumQ h1 h2 ∧ smoothNumQ h1 h2 < 360) ∧
      smoothDiffQ (smoothNumQ h1 h2) h2 = (41 / 50) * smoothDiffQ h1 h2 := by
  obtain ⟨hd1, hd2⟩ := smoothDiffQ_range h1 h2 h1b h2a
  obtain ⟨m, hm⟩ := smoothDiffQ_congruence h1 h2 h1b h2a
  set d := smoothDiffQ h1 h2 with hd
  have hb0 : (0 : ℚ) ≤ h1 + HEADING_SMOOTHING_ALPHA * d + 360 := by
    rw [HEADING_SMOOTHING_ALPHA]; nlinarith
  have hr := jsModQ_bounds (h1 + HEADING_SMOOTHING_ALPHA * d + 360) 360 hb0 (by norm_num)
  obtain ⟨k, hk⟩ := jsModQ_sub_int (h1 + HEADING_SMOOTHING_ALPHA * d + 360) 360 hb0 (by norm_num)
  have hrdef : smoothNumQ h1 h2 = jsModQ (h1 + HEADING_SMOOTHING_ALPHA * d + 360) 360 := by
    rw [smoothNumQ]
  set r := smoothNumQ h1 h2 with hrr
  rw [← hrdef] at hr hk
  refine ⟨⟨hr.1, hr.2⟩, ?_⟩
  obtain ⟨hd21, hd22⟩ := smoothDiffQ_range r h2 hr.2 h2a
  obtain ⟨n, hn⟩ := smoothDiffQ_congruence r h2 hr.2 h2a
  set d2 := smoothDiffQ r h2 with hdd2
  have halpha : HEADING_SMOOTHING_ALPHA = 9 / 50 := rfl
  have hdiff : d2 - (41 / 50) * d = 360 * ((m + k - n - 1 : ℤ) : ℚ) := by
    rw [hn, hk, hm, halpha]; push_cast; ring
  have hb1 : -360 < d2 - (41 / 50) * d := by nlinarith
  have hb2 : d2 - (41 / 50) * d < 360 := by nlinarith
  have := eq_zero_of_int_multiple _ _ hdiff hb1 hb2
  linarith

/-! ## The position-update pipeline (src/app.js lines 200–350) -/


/-! ## Frame lemmas for the pipeline -/

/-- Frame lemma: `updateAddress` only touches the popup and the geocode-gate fields. -/
theorem updateAddress_frame (dist : GeoPoint → GeoPoint → ℚ) (now : ℤ)
    (lat lon accuracy : ℚ) (lookup : Except Unit Address) (st : TrackState) :
    (updateAddress dist now lat lon accuracy lookup st).pathCoords = st.pathCoords ∧
    (updateAddress dist now lat lon accuracy lookup st).currentHeading = st.currentHeading ∧
    (updateAddress dist now lat lon accuracy lookup st).markerPos = st.markerPos ∧
    (updateAddress dist now lat lon accuracy lookup st).accuracyCircle = st.accuracyCircle ∧
    (updateAddress dist now lat lon accuracy lookup st).statusMsg = st.statusMsg ∧
    (updateAddress dist now lat lon accuracy lookup st).storedPath = st.storedPath := by
  unfold updateAddress
  split
  · simp
  · split
    · cases lookup <;> simp
    · simp

/-- The path after one `updatePosition` step: unchanged when the validator
defers the sample, extended by exactly the sample's point otherwise. -/
theorem updatePosition_pathCoords (dist : GeoPoint → GeoPoint → ℚ) (now : ℤ)
    (s : Sample) (lookup : Except Unit Address) (st : TrackState) :
    (updatePosition dist now s lookup st).pathCoords =
      if effAccuracy s.accuracy > MIN_GEOCODE_ACCURACY then st.pathCoords
      else st.pathCoords ++ [(s.lat, s.lon)] := by
  simp only [updatePosition]
  by_cases h : effAccuracy s.accuracy > MIN_GEOCODE_ACCURACY
  · simp [h]
  · simp only [if_neg h]
    rw [(updateAddress_frame dist now s.lat s.lon (effAccuracy s.accuracy) lookup _).1]
    cases hB : (JSVal.typeofNumber s.heading && !JSVal.jsIsNaN s.heading) <;> simp [hB]

/-- The accuracy circle after one `updatePosition` step always shows the
sample's position with the effective accuracy as radius (both the defer
branch and the accept branch set it, and `updateAddress` leaves it alone). -/
theorem updatePosition_accuracyCircle (dist : GeoPoint → GeoPoint → ℚ)
    (now : ℤ) (s : Sample) (lookup : Except Unit Address) (st : TrackState) :
    (updatePosition dist now s lookup st).accuracyCircle =
      some ((s.lat, s.lon), effAccuracy s.accuracy) := by
  simp only [updatePosition]
  by_cases h : effAccuracy s.accuracy > MIN_GEOCODE_ACCURACY
  · simp [h]
  · simp only [if_neg h]
    rw [(updateAddress_frame dist now s.lat s.lon (effAccuracy s.accuracy) lookup _).2.2.2.1]

/-- Lemma: `updateAddress` issues a geocode request exactly when
`shouldAttemptGeocode` says so. -/
theorem updateAddress_requests (dist : GeoPoint → GeoPoint → ℚ) (now : ℤ)
    (lat lon accuracy : ℚ) (lookup : Except Unit Address) (st : TrackState) :
    (updateAddress dist now lat lon accuracy lookup st).geocodeRequests =
      st.geocodeRequests ++
        (if shouldAttemptGeocode dist now (lat, lon) accuracy st then
          [(lat, lon)] else []) := by
  unfold updateAddress shouldAttemptGeocode
  by_cases h : accuracy > MIN_GEOCODE_ACCURACY
  · simp [h]
  · simp only [if_neg h]
    by_cases hg : (distanceEligible dist st.lastGeocodePos (lat, lon)
        && decide (now - st.lastGeocodeTime > GEOCODE_TIME_THROTTLE)) = true
    · cases lookup <;> simp [hg]
    · simp [hg]

/-! ## Claims -/

/-- Claim C2: the validator defers a sample exactly when its accuracy is
strictly greater than 60 meters; accuracy 61 is deferred, 59 is accepted,
and the boundary value 60 is accepted. -/
theorem validator_defers_iff_accuracy_gt_60 :
    (∀ a : ℚ, validatorDefers (some a) = true ↔ a > 60) ∧
    validatorDefers (some 61) = true ∧
    validatorDefers (some 59) = false ∧
    validatorDefers (some 60) = false := by
  refine ⟨?_, ?_, ?_, ?_⟩
  · intro a
    by_cases h0 : a = 0
    · subst h0
      simp [validatorDefers, effAccuracy, MIN_GEOCODE_ACCURACY]
      norm_num
    · simp [validatorDefers, effAccuracy, MIN_GEOCODE_ACCURACY, h0]
  · norm_num [validatorDefers, effAccuracy, MIN_GEOCODE_ACCURACY]
  · norm_num [validatorDefers, effAccuracy, MIN_GEOCODE_ACCURACY]
  · norm_num [validatorDefers, effAccuracy, MIN_GEOCODE_ACCURACY]

/-- Claim C8 counterexample: an infinite observed heading is NOT returned as
`previous` unchanged — the guard `typeof next !== 'number' || isNaN(next)`
lets `Infinity` through (its typeof is `'number'` and `isNaN(Infinity)` is
false), the arithmetic produces `Infinity % 360 = NaN`, and the function
returns `NaN` instead of the previous heading `0`. -/
theorem smooth_infinite_observed_not_previous :
    smoothHeading (.num 0) .posInf = .nan ∧ JSVal.nan ≠ JSVal.num 0 :=
  ⟨rfl, by simp⟩

/-- Claim C8 (amended): `smoothHeading` returns `previous` unchanged when
the observed value is `NaN` or not a number at all, and returns the observed
value when the previous heading is absent (`null`) or `NaN`; an infinite
observed value, however, is not rejected — it flows into the arithmetic and
the function returns `NaN`. -/
theorem smooth_guard_behaviour :
    (∀ prev : JSVal, smoothHeading prev .nan = prev ∧ smoothHeading prev .undef = prev) ∧
    (∀ q : ℚ, smoothHeading .undef (.num q) = .num q ∧ smoothHeading .nan (.num q) = .num q) ∧
    (∀ p : ℚ, smoothHeading (.num p) .posInf = .nan ∧ smoothHeading (.num p) .negInf = .nan) :=
  ⟨fun _ => ⟨rfl, rfl⟩, fun _ => ⟨rfl, rfl⟩, fun _ => ⟨rfl, rfl⟩⟩

/-- Claim C3 counterexample: for previous = 180 and observed = 0 (both in
`[0,360)`), the computed `diff` is exactly `-180`, which does NOT lie in the
interval `(-180, 180]` stated by the claim. -/
theorem smoothDiff_opposite_headings :
    smoothDiffQ 180 0 = -180 ∧
      ¬(-180 < smoothDiffQ 180 0 ∧ smoothDiffQ 180 0 ≤ 180) := by
  have h : smoothDiffQ 180 0 = -180 := by
    rw [smoothDiffQ, jsModQ_eq_of_floor _ _ 1 (by norm_num) (by norm_num)
      (by rw [Int.floor_eq_iff]; norm_num)]
    norm_num
  refine ⟨h, ?_⟩
  rw [h]
  norm_num

/-- Claim C3 (amended): for previous and observed headings both in
`[0,360)`, the smoother computes
`diff = ((observed - previous + 540) mod 360) - 180`, which lies in
`[-180, 180)` (the value `-180` is attained, e.g. at opposite headings, and
`180` never is) and handles wraparound at the 0/360 boundary:
`smooth(350, 10)` computes `diff = +20` (not `-340`) and returns exactly
`353.6` with `ALPHA = 0.18`. -/
theorem smoothDiff_range_and_wraparound (prev next : ℚ)
    (hp : 0 ≤ prev) (hpb : prev < 360) (hn : 0 ≤ next) (hnb : next < 360) :
    (-180 ≤ smoothDiffQ prev next ∧ smoothDiffQ prev next < 180) ∧
    smoothDiffQ 350 10 = 20 ∧
    smoothHeading (.num 350) (.num 10) = .num (1768 / 5) := by
  have hdiff : smoothDiffQ 350 10 = 20 := by
    rw [smoothDiffQ, jsModQ_eq_of_floor _ _ 0 (by norm_num) (by norm_num)
      (by rw [Int.floor_eq_iff]; norm_num)]
    norm_num
  refine ⟨smoothDiffQ_range prev next hpb hn, hdiff, ?_⟩
  rw [smoothHeading_num]
  have : smoothNumQ 350 10 = 1768 / 5 := by
    rw [smoothNumQ, hdiff, HEADING_SMOOTHING_ALPHA,
      jsModQ_eq_of_floor _ _ 1 (by norm_num) (by norm_num)
        (by rw [Int.floor_eq_iff]; norm_num)]
    norm_num
  rw [this]

/-- Witness for the amended C3 at previous = 90, observed = 270. -/
theorem smoothDiff_range_and_wraparound_witness :
    ((0:ℚ) ≤ 90 ∧ (90:ℚ) < 360 ∧ (0:ℚ) ≤ 270 ∧ (270:ℚ) < 360) ∧
    ((-180 ≤ smoothDiffQ 90 270 ∧ smoothDiffQ 90 270 < 180) ∧
      smoothDiffQ 350 10 = 20 ∧
      smoothHeading (.num 350) (.num 10) = .num (1768 / 5)) :=
  ⟨⟨by norm_num, by norm_num, by norm_num, by norm_num⟩,
    smoothDiff_range_and_wraparound 90 270 (by norm_num) (by norm_num)
      (by norm_num) (by norm_num)⟩

/-- Claim C7: for headings `h1, h2` in `[0,360)`, one smoothing step keeps
the heading in `[0,360)` and contracts the angular distance to the observed
heading by the exact factor `41/50` (so it strictly shrinks whenever it is
non-zero, and iterating `smooth(·, h2)` converges toward `h2` with every
iterate in `[0,360)`). -/
theorem smooth_step_converges_and_in_range (h1 h2 : ℚ)
    (h1a : 0 ≤ h1) (h1b : h1 < 360) (h2a : 0 ≤ h2) (h2b : h2 < 360) :
    smoothHeading (.num h1) (.num h2) = .num (smoothNumQ h1 h2) ∧
    (0 ≤ smoothNumQ h1 h2 ∧ smoothNumQ h1 h2 < 360) ∧
    |smoothDiffQ (smoothNumQ h1 h2) h2| = (41 / 50) * |smoothDiffQ h1 h2| ∧
    (smoothDiffQ h1 h2 ≠ 0 →
      |smoothDiffQ (smoothNumQ h1 h2) h2| < |smoothDiffQ h1 h2|) := by
  obtain ⟨hrange, hc⟩ := smoothNumQ_contraction h1 h2 h1a h1b h2a h2b
  have habs : |smoothDiffQ (smoothNumQ h1 h2) h2| = (41 / 50) * |smoothDiffQ h1 h2| := by
    rw [hc, abs_mul, abs_of_pos (by norm_num : (0:ℚ) < 41 / 50)]
  refine ⟨smoothHeading_num h1 h2, hrange, habs, fun hne => ?_⟩
  have hpos : 0 < |smoothDiffQ h1 h2| := abs_pos.mpr hne
  rw [habs]
  nlinarith

/-- Witness for C7 at h1 = 350, h2 = 10. -/
theorem smooth_step_converges_and_in_range_witness :
    ((0:ℚ) ≤ 350 ∧ (350:ℚ) < 360 ∧ (0:ℚ) ≤ 10 ∧ (10:ℚ) < 360) ∧
    (smoothHeading (.num 350) (.num 10) = .num (smoothNumQ 350 10) ∧
      (0 ≤ smoothNumQ 350 10 ∧ smoothNumQ 350 10 < 360) ∧
      |smoothDiffQ (smoothNumQ 350 10) 10| = (41 / 50) * |smoothDiffQ 350 10| ∧
      (smoothDiffQ 350 10 ≠ 0 →
        |smoothDiffQ (smoothNumQ 350 10) 10| < |smoothDiffQ 350 10|)) :=
  ⟨⟨by norm_num, by norm_num, by norm_num, by norm_num⟩,
    smooth_step_converges_and_in_range 350 10 (by norm_num) (by norm_num)
      (by norm_num) (by norm_num)⟩

/-- Claim C1 counterexample: at session start `lastGeocodeTime` is `0`, so a
first sample arriving at time `t = 0` (no prior fix, accepted accuracy 20)
is NOT attempted — `0 - 0 > 1100` fails and the gate answers SKIP, contrary
to the claim that the first sample of a session at `t = 0` yields ATTEMPT. -/
theorem first_sample_at_time_zero_skips :
    initState.lastGeocodePos = none ∧
    (20 : ℚ) ≤ MIN_GEOCODE_ACCURACY ∧
    shouldAttemptGeocode (fun _ _ => 0) 0 (0, 0) 20 initState = false := by
  refine ⟨rfl, by norm_num [MIN_GEOCODE_ACCURACY], ?_⟩
  norm_num [shouldAttemptGeocode, distanceEligible, initState,
    MIN_GEOCODE_ACCURACY, GEOCODE_TIME_THROTTLE]

/-- Claim C1 (amended): for every accepted sample (accuracy ≤ 60), the gate
returns ATTEMPT iff the sample is distance-eligible (no prior fix, or
`dist(lastFixPosition, position) ≥ 20`) and `now - lastFixTime > 1100` ms;
since `lastFixTime` is initialised to `0`, the first sample of a session
(no prior fix) yields ATTEMPT exactly when its arrival time exceeds 1100 ms
— in particular a first sample at `t = 0` yields SKIP, not ATTEMPT.
`updateAddress` issues a lookup request exactly when the gate says ATTEMPT. -/
theorem geocode_gate_attempt_iff (dist : GeoPoint → GeoPoint → ℚ) (now : ℤ)
    (pos : GeoPoint) (accuracy : ℚ) (st : TrackState)
    (hacc : accuracy ≤ MIN_GEOCODE_ACCURACY) :
    (shouldAttemptGeocode dist now pos accuracy st = true ↔
      ((st.lastGeocodePos = none ∨
          ∃ p, st.lastGeocodePos = some p ∧ dist p pos ≥ GEOCODE_DISTANCE_THRESHOLD) ∧
        now - st.lastGeocodeTime > GEOCODE_TIME_THROTTLE)) ∧
    (shouldAttemptGeocode dist now pos accuracy initState = true ↔
      now > GEOCODE_TIME_THROTTLE) ∧
    (∀ lookup : Except Unit Address,
      (updateAddress dist now pos.1 pos.2 accuracy lookup st).geocodeRequests =
        st.geocodeRequests ++
          (if shouldAttemptGeocode dist now (pos.1, pos.2) accuracy st then
            [(pos.1, pos.2)] else [])) := by
  have hnot : ¬ accuracy > MIN_GEOCODE_ACCURACY := not_lt.mpr hacc
  refine ⟨?_, ?_, fun lookup => updateAddress_requests dist now pos.1 pos.2 accuracy lookup st⟩
  · rw [shouldAttemptGeocode, if_neg hnot, Bool.and_eq_true, decide_eq_true_iff]
    constructor
    · rintro ⟨he, ht⟩
      refine ⟨?_, ht⟩
      rw [distanceEligible.eq_def] at he
      cases hlp : st.lastGeocodePos with
      | none => exact Or.inl rfl
      | some p =>
        rw [hlp] at he
        exact Or.inr ⟨p, rfl, by simpa using he⟩
    · rintro ⟨he, ht⟩
      refine ⟨?_, ht⟩
      rw [distanceEligible.eq_def]
      cases hlp : st.lastGeocodePos with
      | none => rfl
      | some p =>
        rcases he with hnone | ⟨p2, hp2, hd⟩
        · rw [hlp] at hnone; cases hnone
        · rw [hlp] at hp2
          injection hp2 with hpe
          subst hpe
          simpa using hd
  · rw [shouldAttemptGeocode, if_neg hnot, Bool.and_eq_true, decide_eq_true_iff]
    have : distanceEligible dist initState.lastGeocodePos pos = true := rfl
    rw [this]
    simp [initState]

/-- Witness for the amended C1 at a concrete accepted sample. -/
theorem geocode_gate_attempt_iff_witness :
    (20 : ℚ) ≤ MIN_GEOCODE_ACCURACY ∧
    ((shouldAttemptGeocode (fun _ _ => 0) 2000 (0, 0) 20 initState = true ↔
        ((initState.lastGeocodePos = none ∨
            ∃ p, initState.lastGeocodePos = some p ∧
              (fun _ _ => (0:ℚ)) p ((0:ℚ), (0:ℚ)) ≥ GEOCODE_DISTANCE_THRESHOLD) ∧
          2000 - initState.lastGeocodeTime > GEOCODE_TIME_THROTTLE)) ∧
      (shouldAttemptGeocode (fun _ _ => 0) 2000 (0, 0) 20 initState = true ↔
        (2000 : ℤ) > GEOCODE_TIME_THROTTLE) ∧
      (∀ lookup : Except Unit Address,
        (updateAddress (fun _ _ => 0) 2000 ((0:ℚ), (0:ℚ)).1 ((0:ℚ), (0:ℚ)).2 20 lookup
            initState).geocodeRequests =
          initState.geocodeRequests ++
            (if shouldAttemptGeocode (fun _ _ => 0) 2000
                (((0:ℚ), (0:ℚ)).1, ((0:ℚ), (0:ℚ)).2) 20 initState then
              [(((0:ℚ), (0:ℚ)).1, ((0:ℚ), (0:ℚ)).2)] else []))) :=
  ⟨by norm_num [MIN_GEOCODE_ACCURACY],
    geocode_gate_attempt_iff (fun _ _ => 0) 2000 (0, 0) 20 initState
      (by norm_num [MIN_GEOCODE_ACCURACY])⟩

/-- Claim C5: when the validator defers a sample (effective accuracy > 60),
`updatePosition` only updates the accuracy circle and the status message;
the path, the persisted path blob, the marker position, the smoothed
heading, the geocode gate state (`lastGeocodeTime`, `lastGeocodePos`), the
popup and the set of issued geocode requests are all left unchanged. -/
theorem defer_updates_only_circle_and_status (dist : GeoPoint → GeoPoint → ℚ)
    (now : ℤ) (s : Sample) (lookup : Except Unit Address) (st : TrackState)
    (h : effAccuracy s.accuracy > MIN_GEOCODE_ACCURACY) :
    updatePosition dist now s lookup st =
      { st with
          statusMsg := some (.waitingForAccurateFix (effAccuracy s.accuracy)),
          accuracyCircle := some ((s.lat, s.lon), effAccuracy s.accuracy) } ∧
    (updatePosition dist now s lookup st).pathCoords = st.pathCoords ∧
    (updatePosition dist now s lookup st).storedPath = st.storedPath ∧
    (updatePosition dist now s lookup st).markerPos = st.markerPos ∧
    (updatePosition dist now s lookup st).currentHeading = st.currentHeading ∧
    (updatePosition dist now s lookup st).lastGeocodeTime = st.lastGeocodeTime ∧
    (updatePosition dist now s lookup st).lastGeocodePos = st.lastGeocodePos ∧
    (updatePosition dist now s lookup st).popup = st.popup ∧
    (updatePosition dist now s lookup st).geocodeRequests = st.geocodeRequests := by
  have heq : updatePosition dist now s lookup st =
      { st with
          statusMsg := some (.waitingForAccurateFix (effAccuracy s.accuracy)),
          accuracyCircle := some ((s.lat, s.lon), effAccuracy s.accuracy) } := by
    simp only [updatePosition, if_pos h]
  exact ⟨heq, by rw [heq], by rw [heq], by rw [heq], by rw [heq], by rw [heq],
    by rw [heq], by rw [heq], by rw [heq]⟩

/-- Witness for C5: a sample with reported accuracy 61 at an arbitrary
concrete state. -/
theorem defer_updates_only_circle_and_status_witness :
    effAccuracy (some 61) > MIN_GEOCODE_ACCURACY ∧
    updatePosition (fun _ _ => 0) 5 ⟨1, 2, some 61, .undef⟩ (.error ()) initState =
      { initState with
          statusMsg := some (.waitingForAccurateFix (effAccuracy (some 61))),
          accuracyCircle := some ((1, 2), effAccuracy (some 61)) } :=
  ⟨by norm_num [effAccuracy, MIN_GEOCODE_ACCURACY],
    (defer_updates_only_circle_and_status (fun _ _ => 0) 5 ⟨1, 2, some 61, .undef⟩
      (.error ()) initState (by norm_num [effAccuracy, MIN_GEOCODE_ACCURACY])).1⟩

/-- Claim C6: when a geocode attempt's address lookup fails, the failure is
recovered locally: the popup falls back to the quick-coordinates display,
while everything else — in particular the path append and the marker update,
which happened before the lookup — is exactly as in a successful run, and
the user-facing status message is untouched.  The gate state was recorded at
attempt time, so it too is unaffected by the failure. -/
theorem geocode_failure_falls_back_to_coords (dist : GeoPoint → GeoPoint → ℚ)
    (now : ℤ) (s : Sample) (st : TrackState) (addr : Address)
    (hacc : ¬ effAccuracy s.accuracy > MIN_GEOCODE_ACCURACY)
    (hgate : (distanceEligible dist st.lastGeocodePos (s.lat, s.lon)
        && decide (now - st.lastGeocodeTime > GEOCODE_TIME_THROTTLE)) = true) :
    updatePosition dist now s (.error ()) st =
      { updatePosition dist now s (.ok addr) st with
          popup := some (.quickCoords s.lat s.lon) } ∧
    (updatePosition dist now s (.error ()) st).popup =
      some (.quickCoords s.lat s.lon) ∧
    (updatePosition dist now s (.error ()) st).pathCoords =
      st.pathCoords ++ [(s.lat, s.lon)] ∧
    (updatePosition dist now s (.error ()) st).markerPos = some (s.lat, s.lon) ∧
    (updatePosition dist now s (.error ()) st).statusMsg = st.statusMsg := by
  simp only [updatePosition, if_neg hacc, updateAddress]
  cases hB : (JSVal.typeofNumber s.heading && !JSVal.jsIsNaN s.heading) <;>
    simp [hB, if_neg hacc, hgate]

/-- Witness for C6: first sample of a session arriving at `t = 2000` ms with
default accuracy, whose lookup fails. -/
theorem geocode_failure_falls_back_to_coords_witness :
    (¬ effAccuracy (none : Option ℚ) > MIN_GEOCODE_ACCURACY) ∧
    ((distanceEligible (fun _ _ => 0) initState.lastGeocodePos (1, 2)
        && decide (2000 - initState.lastGeocodeTime > GEOCODE_TIME_THROTTLE)) = true) ∧
    updatePosition (fun _ _ => 0) 2000 ⟨1, 2, none, .undef⟩ (.error ()) initState =
      { updatePosition (fun _ _ => 0) 2000 ⟨1, 2, none, .undef⟩
          (.ok ⟨"", "", "", "", "", "", ""⟩) initState with
          popup := some (.quickCoords 1 2) } ∧
    (updatePosition (fun _ _ => 0) 2000 ⟨1, 2, none, .undef⟩ (.error ())
        initState).pathCoords = initState.pathCoords ++ [(1, 2)] := by
  have h1 : ¬ effAccuracy (none : Option ℚ) > MIN_GEOCODE_ACCURACY := by
    norm_num [effAccuracy, MIN_GEOCODE_ACCURACY]
  have h2 : (distanceEligible (fun _ _ => 0) initState.lastGeocodePos (1, 2)
      && decide (2000 - initState.lastGeocodeTime > GEOCODE_TIME_THROTTLE)) = true := by
    norm_num [distanceEligible, initState, GEOCODE_TIME_THROTTLE]
  have h := geocode_failure_falls_back_to_coords (fun _ _ => 0) 2000
    ⟨1, 2, none, .undef⟩ initState ⟨"", "", "", "", "", "", ""⟩ h1 h2
  exact ⟨h1, h2, h.1, h.2.2.1⟩

/-- Claim C4: after processing any stream of samples, every point of the
path either was already there at the start or came from a sample that
passed the accuracy gate (effective accuracy ≤ 60 m); no point of a
validator-rejected sample is ever appended. -/
theorem path_contains_only_accepted_points (dist : GeoPoint → GeoPoint → ℚ)
    (ticks : List Tick) (st : TrackState) (p : GeoPoint)
    (hp : p ∈ (processTicks dist ticks st).pathCoords) :
    p ∈ st.pathCoords ∨
      ∃ t ∈ ticks, effAccuracy t.sample.accuracy ≤ MIN_GEOCODE_ACCURACY ∧
        p = (t.sample.lat, t.sample.lon) := by
  induction ticks generalizing st with
  | nil => exact Or.inl hp
  | cons t ts ih =>
    have hp2 : p ∈ (processTicks dist ts
        (updatePosition dist t.now t.sample t.lookup st)).pathCoords := hp
    rcases ih _ hp2 with hmem | ⟨t2, ht2, hacc, hpt⟩
    · rw [updatePosition_pathCoords] at hmem
      by_cases hdef : effAccuracy t.sample.accuracy > MIN_GEOCODE_ACCURACY
      · rw [if_pos hdef] at hmem
        exact Or.inl hmem
      · rw [if_neg hdef] at hmem
        rcases List.mem_append.mp hmem with hold | hnew
        · exact Or.inl hold
        · refine Or.inr ⟨t, List.mem_cons_self t ts, not_lt.mp hdef, ?_⟩
          simpa using hnew
    · exact Or.inr ⟨t2, List.mem_cons_of_mem t ht2, hacc, hpt⟩

/-- Witness for C4: a single accepted sample appends its point. -/
theorem path_contains_only_accepted_points_witness :
    ((1, 2) : GeoPoint) ∈ (processTicks (fun _ _ => 0)
      [⟨2000, ⟨1, 2, none, .undef⟩, .error ()⟩] initState).pathCoords ∧
    (((1, 2) : GeoPoint) ∈ initState.pathCoords ∨
      ∃ t ∈ [(⟨2000, ⟨1, 2, none, .undef⟩, .error ()⟩ : Tick)],
        effAccuracy t.sample.accuracy ≤ MIN_GEOCODE_ACCURACY ∧
          ((1, 2) : GeoPoint) = (t.sample.lat, t.sample.lon)) := by
  have hp : ((1, 2) : GeoPoint) ∈ (processTicks (fun _ _ => 0)
      [⟨2000, ⟨1, 2, none, .undef⟩, .error ()⟩] initState).pathCoords := by
    show ((1, 2) : GeoPoint) ∈ (updatePosition (fun _ _ => 0) 2000
      ⟨1, 2, none, .undef⟩ (.error ()) initState).pathCoords
    rw [updatePosition_pathCoords]
    norm_num [effAccuracy, MIN_GEOCODE_ACCURACY, initState]
  exact ⟨hp, path_contains_only_accepted_points (fun _ _ => 0) _ initState (1, 2) hp⟩

/-- Claim C9: restoring a previously saved non-empty path replaces the
in-memory sequence wholesale, and loading a previously saved blob at session
start (in-memory path still empty) and immediately saving it again
serialises to a byte-identical blob. -/
theorem restore_then_save_is_identity (ps : List GeoPoint) :
    (∀ cur : List GeoPoint, ps ≠ [] → loadSavedPath (some ps) cur = ps) ∧
    savePathBlob (loadSavedPath (some ps) initState.pathCoords) =
      savePathBlob ps := by
  constructor
  · intro cur h
    simp [loadSavedPath, h]
  · rcases ps with _ | ⟨a, l⟩ <;> simp [loadSavedPath, initState]

/-- Witness for C9 at a concrete one-point path. -/
theorem restore_then_save_is_identity_witness :
    loadSavedPath (some [((1 : ℚ), (2 : ℚ))]) [((3 : ℚ), (4 : ℚ))] = [(1, 2)] ∧
    savePathBlob (loadSavedPath (some [((1 : ℚ), (2 : ℚ))]) initState.pathCoords) =
      savePathBlob [(1, 2)] :=
  ⟨(restore_then_save_is_identity [(1, 2)]).1 [(3, 4)] (by simp),
    (restore_then_save_is_identity [(1, 2)]).2⟩

/-- Claim C10: the effective accuracy is the reported accuracy when present
and truthy, and 20 meters otherwise — a missing accuracy defaults to 20, and
a reported accuracy of exactly 0 is replaced by 20; the accuracy circle
always renders the effective accuracy, and a zero-accuracy sample renders a
20-meter circle, is not deferred, and extends the path. -/
theorem effective_accuracy_defaults (dist : GeoPoint → GeoPoint → ℚ)
    (now : ℤ) (s : Sample) (lookup : Except Unit Address) (st : TrackState) :
    effAccuracy none = 20 ∧
    effAccuracy (some 0) = 20 ∧
    (∀ a : ℚ, a ≠ 0 → effAccuracy (some a) = a) ∧
    (updatePosition dist now s lookup st).accuracyCircle =
      some ((s.lat, s.lon), effAccuracy s.accuracy) ∧
    validatorDefers (some 0) = false ∧
    (s.accuracy = some 0 →
      (updatePosition dist now s lookup st).accuracyCircle =
          some ((s.lat, s.lon), 20) ∧
        (updatePosition dist now s lookup st).pathCoords =
          st.pathCoords ++ [(s.lat, s.lon)]) := by
  refine ⟨rfl, rfl, ?_, updatePosition_accuracyCircle dist now s lookup st, ?_, ?_⟩
  · intro a ha
    simp [effAccuracy, ha]
  · norm_num [validatorDefers, effAccuracy, MIN_GEOCODE_ACCURACY]
  · intro h0
    have heff : effAccuracy s.accuracy = 20 := by rw [h0]; rfl
    constructor
    · rw [updatePosition_accuracyCircle, heff]
    · rw [updatePosition_pathCoords, heff, if_neg (by norm_num [MIN_GEOCODE_ACCURACY])]

/-- Witness for C10 at a concrete zero-accuracy sample. -/
theorem effective_accuracy_defaults_witness :
    ((2 : ℚ) ≠ 0 ∧ effAccuracy (some 2) = 2) ∧
    (⟨1, 2, some 0, .undef⟩ : Sample).accuracy = some 0 ∧
    (updatePosition (fun _ _ => 0) 7 ⟨1, 2, some 0, .undef⟩ (.error ())
        initState).accuracyCircle = some ((1, 2), 20) ∧
    (updatePosition (fun _ _ => 0) 7 ⟨1, 2, some 0, .undef⟩ (.error ())
        initState).pathCoords = initState.pathCoords ++ [(1, 2)] := by
  have h := effective_accuracy_defaults (fun _ _ => 0) 7
    ⟨1, 2, some 0, .undef⟩ (.error ()) initState
  have h0 : (⟨1, 2, some 0, .undef⟩ : Sample).accuracy = some 0 := rfl
  obtain ⟨hc, hpath⟩ := h.2.2.2.2.2 h0
  exact ⟨⟨by norm_num, h.2.2.1 2 (by norm_num)⟩, h0, hc, hpath⟩
